import Mathlib

/-!
Verification of the authentication and secrets subsystem of the ESC-APE
repository (src/core/auth.py, src/core/secrets.py, src/core/auth_flow.py).

The Python source is shallowly embedded: dataclasses become structures,
async functions become pure functions with the secret store, the current
time and the in-memory cache passed explicitly, and every raising operation
is modelled with Except so that each try/except block of the source maps to
a match on an Except value.  Machine details that the claims do not touch
(HTTP wire format, base64, the AES internals of Fernet, the byte-level JSON
grammar) are abstracted at the documented library contract, as noted on the
corresponding definitions.
-/

/-- Python truthiness of an optional integer (None and 0 are falsy,
every other integer, including -1, is truthy).  Used for the
`if expires_in:` checks in core/auth.py. -/
def pyIntTruthy : Option Int → Bool
  | none => false
  | some n => n != 0

/-- Python truthiness of an optional string (None and the empty string are
falsy). -/
def pyStrTruthy : Option String → Bool
  | none => false
  | some s => !s.isEmpty

/-- Python truthiness of an optional list (None and the empty list are
falsy). -/
def pyListTruthy : Option (List String) → Bool
  | none => false
  | some l => !l.isEmpty

/-- Python `scopes or []` from create_api_token (core/auth.py line 427):
None and the empty list both give the empty list. -/
def pyListOr : Option (List String) → List String
  | none => []
  | some l => if l.isEmpty then [] else l

/-- AuthUser dataclass (core/auth.py lines 28-42).  The __post_init__ of the
source replaces a None scopes field by the empty list, so scopes is a plain
list here. -/
structure AuthUser where
  id : String
  username : Option String := none
  email : Option String := none
  role : Option String := none
  scopes : List String := []
deriving DecidableEq

/-- AuthResult dataclass (core/auth.py lines 45-53). -/
structure AuthResult where
  success : Bool
  user : Option AuthUser := none
  error : Option String := none
deriving DecidableEq

/-- AuthMiddleware configuration fields (core/auth.py __init__,
lines 61-91).  The mutable cache dictionaries are carried separately in
`CacheState`; the cache TTL is the constant `api_token_cache_ttl`. -/
structure AuthMiddleware where
  jwt_secret : Option String := none
  jwt_algorithm : String := "HS256"
  api_token_header : String := "X-API-Token"
  jwt_token_header : String := "Authorization"
  required_scopes : List String := []
  skip_auth : Bool := false

/-- The API-token cache TTL set in AuthMiddleware.__init__
(core/auth.py line 90): 300 seconds. -/
def api_token_cache_ttl : Int := 300

/-- The two mutable cache dictionaries of AuthMiddleware
(api_token_cache and api_token_cache_timestamps, core/auth.py
lines 89-91), modelled as lookup functions. -/
structure CacheState where
  cache : String → Option AuthUser
  timestamps : String → Option Int

/-- A freshly constructed middleware has both dictionaries empty. -/
def emptyCacheState : CacheState :=
  { cache := fun _ => none, timestamps := fun _ => none }

/-- AuthMiddleware._has_required_scopes (core/auth.py lines 275-298):
empty requirement list passes everything, the wildcard scope passes
everything, otherwise every required scope must be held. -/
def AuthMiddleware.has_required_scopes (mw : AuthMiddleware) (user : AuthUser) : Bool :=
  if mw.required_scopes.isEmpty then true
  else if user.scopes.contains "*" then true
  else mw.required_scopes.all (fun scope => user.scopes.contains scope)

/-- The JSON document stored for an API token record
(built in create_api_token, core/auth.py lines 422-433, and read back with
json.loads in _authenticate_api_token line 174 and refresh_token line 167).
Each field is optional because the readers use dict.get with a default. -/
structure TokenData where
  id : Option String := none
  username : Option String := none
  email : Option String := none
  role : Option String := none
  scopes : Option (List String) := none
  created_at : Option Int := none
  expires_at : Option Int := none
deriving DecidableEq

/-- A secret value string as the auth layer sees it after get_secret.
json.loads either parses it into a token document (doc), fails on a
malformed non-empty string (malformed), or the value is the empty string,
which the sources catch earlier with a falsiness check (emptyStr).  This
abstracts the byte-level JSON grammar: a stored string is classified by
what json.loads does with it. -/
inductive StoreVal where
  | doc (d : TokenData)
  | malformed
  | emptyStr
deriving DecidableEq

/-- The secret store as seen through core/secrets.get_secret for the auth
layer: a name resolves to a value, to nothing, or the lookup raises
(for example the ValueError from get_secrets_manager when the store
credentials are unconfigured); the Except error carries str(e). -/
def SecretStore : Type := String → Except String (Option StoreVal)

/-- The AuthUser built from a parsed token document
(core/auth.py lines 182-188). -/
def userOfTokenData (d : TokenData) : AuthUser :=
  { id := d.id.getD "unknown"
    username := d.username
    email := d.email
    role := d.role
    scopes := d.scopes.getD [] }

/-- The insufficient-permissions message of the middleware
(core/auth.py lines 194 and 256). -/
def insufficientScopesMsg (mw : AuthMiddleware) : String :=
  "Insufficient permissions. Required scopes: " ++ String.intercalate ", " mw.required_scopes

/-- Result of one call of _authenticate_api_token: the returned AuthResult,
the cache state after the call, and how many secret-store lookups the call
performed. -/
structure ApiAuthOutcome where
  result : AuthResult
  state : CacheState
  lookups : Nat

/-- The try-block of _authenticate_api_token (core/auth.py lines 162-210):
one get_secret lookup, falsiness check on the value, json.loads with its
JSONDecodeError handler, construction of the AuthUser, the required-scope
check, and on success insertion of the user into both cache dictionaries.
The final except clause (lines 205-210) catches anything the store lookup
raised. -/
def apiTokenLookup (mw : AuthMiddleware) (store : SecretStore) (now : Int)
    (st : CacheState) (token : String) : ApiAuthOutcome :=
  match store ("api_token:" ++ token) with
  | .error e =>
    { result := { success := false, error := some ("Error authenticating API token: " ++ e) }
      state := st, lookups := 1 }
  | .ok none =>
    { result := { success := false, error := some "Invalid API token." }
      state := st, lookups := 1 }
  | .ok (some .emptyStr) =>
    { result := { success := false, error := some "Invalid API token." }
      state := st, lookups := 1 }
  | .ok (some .malformed) =>
    { result := { success := false, error := some "Invalid API token data format." }
      state := st, lookups := 1 }
  | .ok (some (.doc d)) =>
    let user := userOfTokenData d
    if mw.has_required_scopes user then
      { result := { success := true, user := some user }
        state :=
          { cache := fun t => if t = token then some user else st.cache t
            timestamps := fun t => if t = token then some now else st.timestamps t }
        lookups := 1 }
    else
      { result := { success := false, error := some (insufficientScopesMsg mw) }
        state := st, lookups := 1 }

/-- AuthMiddleware._authenticate_api_token (core/auth.py lines 142-210).
A cached entry younger than the TTL is returned without a store lookup;
a stale or missing entry falls through to the try-block lookup.  The
timestamp default 0 mirrors dict.get(token, 0) at line 155. -/
def AuthMiddleware.authenticate_api_token (mw : AuthMiddleware) (store : SecretStore)
    (now : Int) (st : CacheState) (token : String) : ApiAuthOutcome :=
  match st.cache token with
  | some user =>
    if now - (st.timestamps token).getD 0 < api_token_cache_ttl then
      { result := { success := true, user := some user }, state := st, lookups := 0 }
    else
      apiTokenLookup mw store now st token
  | none => apiTokenLookup mw store now st token

/-- The token_data document assembled by create_api_token
(core/auth.py lines 422-433) for a token generated at time now:
scopes defaults through `scopes or []`, created_at is now, and expires_at
is set only when expires_in is truthy. -/
def create_api_token_data (user_id : String) (username email role : Option String)
    (scopes : Option (List String)) (expires_in : Option Int) (now : Int) : TokenData :=
  { id := some user_id
    username := username
    email := email
    role := role
    scopes := some (pyListOr scopes)
    created_at := some now
    expires_at := if pyIntTruthy expires_in then some (now + expires_in.getD 0) else none }

/-- The secret store after a successful create_api_token run
(core/auth.py lines 436-440): set_secret stores json.dumps of the document
under the key "api_token:" ++ token, and a later get_secret of that key
decrypts and parses it back to the same document (encryption round-trip as
in SecretsManager.decrypt below, json round-trip as documented on
StoreVal). -/
def storeAfterCreate (base : SecretStore) (token : String) (d : TokenData) : SecretStore :=
  fun name =>
    if name = "api_token:" ++ token then .ok (some (.doc d)) else base name

/-- The JWT claims payload assembled by create_jwt_token
(core/auth.py lines 494-514).  Optional claims model dict keys that are
only added when the corresponding argument is truthy. -/
structure JwtPayload where
  sub : Option String := none
  iat : Int := 0
  username : Option String := none
  email : Option String := none
  role : Option String := none
  scopes : Option (List String) := none
  exp : Option Int := none
deriving DecidableEq

/-- A signed JWT as produced by jwt.encode (core/auth.py lines 517-521):
the claims payload signed with a secret under an algorithm.  The base64
wire form and the HMAC computation are abstracted at the library contract:
a token carries exactly the payload it was signed over, and verification
succeeds exactly when secret and algorithm match. -/
structure Jwt where
  payload : JwtPayload
  sig : String
  alg : String
deriving DecidableEq

/-- A string offered as a JWT on the wire: either a well-formed signed
token, or a string that jwt.decode rejects outright (DecodeError). -/
inductive JwtWire where
  | valid (j : Jwt)
  | malformed
deriving DecidableEq

/-- The value of the Authorization header: absent handling is at the
caller; a present header is the empty string, a value with the literal
"Bearer " marker, or a raw token value (core/auth.py lines 126-130). -/
inductive AuthHeaderVal where
  | emptyStr
  | withMarker (w : JwtWire)
  | plain (w : JwtWire)
deriving DecidableEq

/-- jwt.decode with a single allowed algorithm (core/auth.py lines
230-234), modelled at the library contract for signature and algorithm
verification; the error string carries str(e) of the PyJWTError.  The
expiry claim is checked by the explicit source check that follows the
decode (line 237), which is the code under verification here; the library
default expiry validation rejects the same tokens one line earlier. -/
def jwtDecode (secret : String) (alg : String) : JwtWire → Except String JwtPayload
  | .malformed => .error "Not enough segments"
  | .valid j =>
    if j.sig = secret ∧ j.alg = alg then .ok j.payload
    else .error "Signature verification failed"

/-- AuthMiddleware._authenticate_jwt_token (core/auth.py lines 212-273):
fail when no secret is configured, decode, reject a past exp claim, build
the AuthUser from the claims, and apply the required-scope check. -/
def AuthMiddleware.authenticate_jwt_token (mw : AuthMiddleware) (now : Int)
    (w : JwtWire) : AuthResult :=
  match mw.jwt_secret with
  | none => { success := false, error := some "JWT authentication is not configured." }
  | some secret =>
    match jwtDecode secret mw.jwt_algorithm w with
    | .error e => { success := false, error := some ("Invalid JWT token: " ++ e) }
    | .ok payload =>
      if (match payload.exp with
          | some e => decide (e < now)
          | none => false) then
        { success := false, error := some "JWT token has expired." }
      else
        let user : AuthUser :=
          { id := payload.sub.getD "unknown"
            username := payload.username
            email := payload.email
            role := payload.role
            scopes := payload.scopes.getD [] }
        if mw.has_required_scopes user then
          { success := true, user := some user }
        else
          { success := false, error := some (insufficientScopesMsg mw) }

/-- create_jwt_token (core/auth.py lines 461-523): raises ValueError when
no secret is configured; otherwise builds the payload with sub and iat
always present, the optional claims only when their argument is truthy,
and exp = now + expires_in only when expires_in is truthy (so a negative
expires_in such as -1 does set exp). -/
def create_jwt_token (user_id : String) (username email role : Option String)
    (scopes : Option (List String)) (expires_in : Option Int)
    (jwt_secret : Option String) (jwt_algorithm : String) (now : Int) :
    Except String Jwt :=
  match jwt_secret with
  | none => .error "JWT secret is not configured."
  | some secret =>
    .ok
      { payload :=
          { sub := some user_id
            iat := now
            username := if pyStrTruthy username then username else none
            email := if pyStrTruthy email then email else none
            role := if pyStrTruthy role then role else none
            scopes := if pyListTruthy scopes then scopes else none
            exp := if pyIntTruthy expires_in then some (now + expires_in.getD 0) else none }
        sig := secret
        alg := jwt_algorithm }

/-- The two request headers the Authenticator reads
(core/auth.py lines 116-130): the API-token header value and the
Authorization header value. -/
structure RequestHeaders where
  apiToken : Option String := none
  authorization : Option AuthHeaderVal := none

/-- Bearer marker stripping (core/auth.py lines 129-130): a value carrying
the literal "Bearer " marker has it removed; a raw value is used as is. -/
def stripBearerMarker : AuthHeaderVal → JwtWire
  | .emptyStr => .malformed
  | .withMarker w => w
  | .plain w => w

/-- The generic failure result when neither credential path succeeds
(core/auth.py lines 137-140). -/
def noCredentialResult : AuthResult :=
  { success := false
    error := some "Authentication failed. No valid API token or JWT token provided." }

/-- The JWT stage and final failure of AuthMiddleware.authenticate
(core/auth.py lines 126-140), entered with the cache state and lookup
count left by the API-token stage. -/
def authJwtStage (mw : AuthMiddleware) (now : Int) (st : CacheState) (n : Nat)
    (h : RequestHeaders) : AuthResult × CacheState × Nat :=
  match h.authorization with
  | none => (noCredentialResult, st, n)
  | some .emptyStr => (noCredentialResult, st, n)
  | some v =>
    let r := mw.authenticate_jwt_token now (stripBearerMarker v)
    if r.success then (r, st, n) else (noCredentialResult, st, n)

/-- AuthMiddleware.authenticate (core/auth.py lines 93-140): the skip_auth
bypass returns the synthetic development principal; otherwise the
API-token path is tried when its header is truthy, and on its failure the
JWT path is tried as fallback. -/
def AuthMiddleware.authenticate (mw : AuthMiddleware) (store : SecretStore)
    (now : Int) (st : CacheState) (h : RequestHeaders) :
    AuthResult × CacheState × Nat :=
  if mw.skip_auth then
    ({ success := true
       user := some
         { id := "dev", username := some "developer", role := some "admin", scopes := ["*"] } },
      st, 0)
  else
    match h.apiToken with
    | some tok =>
      if tok.isEmpty then authJwtStage mw now st 0 h
      else
        let o := mw.authenticate_api_token store now st tok
        if o.result.success then (o.result, o.state, o.lookups)
        else authJwtStage mw now o.state o.lookups h
    | none => authJwtStage mw now st 0 h

/-- Outcome of the require_auth wrapper (core/auth.py lines 301-355):
either the wrapped operation ran and produced a value, or the wrapper
returned the structured error json.dumps of a dict with an error key
(carried here as the message), or an exception escaped the wrapper. -/
inductive GuardOutcome (α : Type) where
  | invoked (a : α)
  | errorResult (msg : Option String)
  | raised (e : String)
deriving DecidableEq

/-- The per-scope loop of require_auth (core/auth.py lines 340-344):
the first required scope the user lacks, with the wildcard scope passing
every iteration. -/
def findMissingScope (scopes : List String) (user : AuthUser) : Option String :=
  scopes.find? (fun scope => !user.scopes.contains scope && !user.scopes.contains "*")

/-- The require_auth decorator wrapper (core/auth.py lines 301-355):
skip_auth or a missing middleware lets the call through unauthenticated;
otherwise the Authenticator runs, a failure becomes a structured error
result without invoking the wrapped operation, the decorator-level scope
loop runs when scopes is truthy, and on success the user is attached and
the operation invoked.  The raised case is reachable only from the
impossible success-without-user shape (the attribute access on None). -/
def require_auth {α : Type} (scopes : Option (List String)) (skip_auth : Bool)
    (mw : Option AuthMiddleware) (store : SecretStore) (now : Int)
    (st : CacheState) (h : RequestHeaders) (func : Option AuthUser → α) :
    GuardOutcome α :=
  if skip_auth then .invoked (func none)
  else
    match mw with
    | none => .invoked (func none)
    | some m =>
      let res := (m.authenticate store now st h).1
      if res.success then
        if pyListTruthy scopes then
          match res.user with
          | none => .raised "AttributeError"
          | some user =>
            match findMissingScope (scopes.getD []) user with
            | some scope =>
              .errorResult (some ("Insufficient permissions. Required scope: " ++ scope))
            | none => .invoked (func res.user)
        else .invoked (func res.user)
      else .errorResult res.error

/-- A Fernet ciphertext string as produced by fernet.encrypt and consumed
by fernet.decrypt (core/secrets.py lines 111-142).  The library contract
is modelled structurally: the token is bound to the encryption key it was
produced with (the HMAC tag) and carries the plaintext recoverable exactly
under that key (the AES layer); decrypting under any other key raises
InvalidToken. -/
structure FernetToken where
  keyId : Nat
  payload : String
deriving DecidableEq

/-- SecretsManager fields (core/secrets.py __init__, lines 48-63).
The Fernet key is the abstract key identifier of FernetToken. -/
structure SecretsManager where
  supabase_url : String
  supabase_key : String
  encryption_key : Nat

/-- SecretsManager.encrypt (core/secrets.py lines 111-122): encrypt the
UTF-8 bytes of the value under the manager's Fernet key and return the
token text. -/
def SecretsManager.encrypt (m : SecretsManager) (data : String) : FernetToken :=
  { keyId := m.encryption_key, payload := data }

/-- SecretsManager.decrypt (core/secrets.py lines 124-142): fernet.decrypt
inside a try/except that re-raises as a generic failure message; the error
carries the message of the raised Exception. -/
def SecretsManager.decrypt (m : SecretsManager) (t : FernetToken) : Except String String :=
  if t.keyId = m.encryption_key then .ok t.payload
  else .error "Failed to decrypt data: InvalidToken"

/-- A row of the secrets table as returned by the store REST endpoint
(consumed in core/secrets.py get_secret, lines 241-259); value holds the
ciphertext. -/
structure SecretRow where
  id : String
  name : String
  value : FernetToken
  creator_id : Option String := none
  description : Option String := none
  created_at : Option String := none
  updated_at : Option String := none
deriving DecidableEq

/-- The Secret dataclass (core/secrets.py lines 28-40) with the value
decrypted. -/
structure Secret where
  id : String
  name : String
  value : String
  creator_id : Option String := none
  description : Option String := none
  created_at : Option String := none
  updated_at : Option String := none
deriving DecidableEq

/-- SecretsManager._request outcome (core/secrets.py lines 161-211): a
non-2xx status raises an Exception carrying the status, a 2xx response
yields the JSON row list.  Network failures from the HTTP client are the
Except.error case with the client's message, produced here for any status
at or above 400 exactly as the source's status check does. -/
def SecretsManager.requestResult (status : Nat) (rows : List SecretRow) :
    Except String (List SecretRow) :=
  if 400 ≤ status then .error ("Supabase API error: " ++ toString status)
  else .ok rows

/-- SecretsManager.get_secret (core/secrets.py lines 213-264), applied to
the outcome of its store request for the queried name: the first returned
row is decrypted, a decryption failure yields None, no rows yield None,
and the enclosing try/except turns any raised store or transport error
into None as well (lines 262-264). -/
def SecretsManager.get_secret (m : SecretsManager)
    (resp : Except String (List SecretRow)) : Option Secret :=
  match resp with
  | .error _ => none
  | .ok [] => none
  | .ok (row :: _) =>
    match m.decrypt row.value with
    | .error _ => none
    | .ok v =>
      some
        { id := row.id, name := row.name, value := v
          creator_id := row.creator_id, description := row.description
          created_at := row.created_at, updated_at := row.updated_at }

/-- Module-level get_secret (core/secrets.py lines 453-470): the value of
the found secret, or None. -/
def get_secret (m : SecretsManager) (resp : Except String (List SecretRow)) :
    Option String :=
  match m.get_secret resp with
  | some s => some s.value
  | none => none

/-- AuthFlowResult dataclass (core/auth_flow.py lines 24-36). -/
structure AuthFlowResult where
  success : Bool
  user : Option AuthUser := none
  token : Option Jwt := none
  refresh_token : Option String := none
  expires_in : Option Int := none
  error : Option String := none
  redirect_url : Option String := none
deriving DecidableEq

/-- PrivyAuthFlow configuration fields used by the refresh path
(core/auth_flow.py __init__, lines 44-75). -/
structure PrivyAuthFlow where
  jwt_secret : Option String := none
  jwt_algorithm : String := "HS256"
  token_expiration : Int := 3600
  refresh_token_expiration : Int := 2592000

/-- A failure AuthFlowResult carrying only an error message. -/
def authFlowErr (e : String) : AuthFlowResult :=
  { success := false, error := some e }

/-- The expiry check of refresh_token (core/auth_flow.py line 175):
the key must be present and its value strictly below the current time. -/
def tokenDataExpired (d : TokenData) (now : Int) : Bool :=
  match d.expires_at with
  | some e => decide (e < now)
  | none => false

/-- PrivyAuthFlow.refresh_token (core/auth_flow.py lines 144-224): look the
refresh token up as a stored secret, fail on a falsy value, on a JSON parse
failure, on a past expires_at, and on a missing auth:refresh scope; then
mint a new JWT over the stored identity with the refresh scope filtered
out, returning the same refresh token unchanged.  The enclosing try/except
(lines 219-224) catches anything the store lookup or create_jwt_token
raised. -/
def PrivyAuthFlow.refresh_token (flow : PrivyAuthFlow) (store : SecretStore)
    (now : Int) (rt : String) : AuthFlowResult :=
  match store ("api_token:" ++ rt) with
  | .error e => authFlowErr ("Error refreshing token: " ++ e)
  | .ok none => authFlowErr "Invalid refresh token"
  | .ok (some .emptyStr) => authFlowErr "Invalid refresh token"
  | .ok (some .malformed) => authFlowErr "Invalid refresh token data format"
  | .ok (some (.doc d)) =>
    if tokenDataExpired d now then authFlowErr "Refresh token has expired"
    else if !((d.scopes.getD []).contains "auth:refresh") then
      authFlowErr "Invalid refresh token: Missing required scope"
    else
      let user := userOfTokenData d
      let jwt_scopes := user.scopes.filter (fun s => s ≠ "auth:refresh")
      match create_jwt_token user.id user.username user.email user.role
          (some jwt_scopes) (some flow.token_expiration)
          flow.jwt_secret flow.jwt_algorithm now with
      | .error e => authFlowErr ("Error refreshing token: " ++ e)
      | .ok j =>
        { success := true, user := some user, token := some j
          refresh_token := some rt, expires_in := some flow.token_expiration }

/-- The invariant of the API-token cache: every cached principal passed
the middleware's required-scope check when it was inserted. -/
def CacheInv (mw : AuthMiddleware) (st : CacheState) : Prop :=
  ∀ t u, st.cache t = some u → mw.has_required_scopes u = true

/-- Every principal an AuthResult carries satisfies the middleware's
required scopes (vacuously true for the user-free failure results). -/
def resultUserSatisfies (mw : AuthMiddleware) (r : AuthResult) : Bool :=
  match r.user with
  | none => true
  | some u => mw.has_required_scopes u

/-- Concrete middleware with default configuration (no required scopes,
bypass disabled), as built by AuthMiddleware() with no arguments. -/
def mwDefault : AuthMiddleware := {}

/-- Concrete stored token record whose expires_at lies in the past of the
resolution times used below. -/
def expiredTokenData : TokenData :=
  { id := some "u1", scopes := some ["read"], created_at := some 50, expires_at := some 100 }

/-- Concrete secret store holding only the expired record under the key
of token expired-tok. -/
def expiredTokenStore : SecretStore := fun name =>
  if name = "api_token:expired-tok" then .ok (some (.doc expiredTokenData)) else .ok none

/-- Concrete secrets manager for the store-error scenarios. -/
def demoManager : SecretsManager :=
  { supabase_url := "https://store.example", supabase_key := "service-key", encryption_key := 7 }

/-- Concrete row list the store would return for an existing secret,
encrypted under the key of demoManager. -/
def demoRows : List SecretRow :=
  [{ id := "row1", name := "k", value := { keyId := 7, payload := "v" } }]

/-- Concrete middleware holding a JWT secret, for the expired-JWT
scenario. -/
def mwJwt : AuthMiddleware := { jwt_secret := some "jwt-signing-key" }

/-- The token that create_jwt_token mints at time 10 with expires_in -1
under the secret of mwJwt: its exp claim is 9. -/
def expiredJwt : Jwt :=
  { payload := { sub := some "u1", iat := 10, exp := some 9 }
    sig := "jwt-signing-key"
    alg := "HS256" }

/-- Concrete middleware requiring the read scope. -/
def mwRead : AuthMiddleware := { required_scopes := ["read"] }

/-- Concrete valid token record holding the read scope. -/
def readTokenData : TokenData :=
  { id := some "u2", scopes := some ["read"], created_at := some 0 }

/-- Concrete secret store holding the read-scope record under the key of
token cache-tok. -/
def readTokenStore : SecretStore := fun name =>
  if name = "api_token:cache-tok" then .ok (some (.doc readTokenData)) else .ok none

/-- Concrete refresh-token record that expired at time 100. -/
def expiredRefreshData : TokenData :=
  { id := some "u3", scopes := some ["auth:refresh"], created_at := some 50
    expires_at := some 100 }

/-- Concrete secret store holding the expired refresh record. -/
def expiredRefreshStore : SecretStore := fun name =>
  if name = "api_token:refresh-tok" then .ok (some (.doc expiredRefreshData)) else .ok none

/-- Concrete auth flow with a configured JWT secret. -/
def demoFlow : PrivyAuthFlow := { jwt_secret := some "jwt-signing-key" }

/-- Concrete store whose every lookup raises, for the guard scenario. -/
def errorStore : SecretStore := fun _ => .error "connection refused"

/-- C1: the scope check of the Authenticator succeeds iff the requirement
set is empty, or the principal holds the wildcard scope, or every required
scope is a member of the principal's scope set. -/
theorem has_required_scopes_iff (mw : AuthMiddleware) (user : AuthUser) :
    mw.has_required_scopes user = true ↔
      (mw.required_scopes = [] ∨ "*" ∈ user.scopes ∨
        ∀ scope ∈ mw.required_scopes, scope ∈ user.scopes) := by
  unfold AuthMiddleware.has_required_scopes
  by_cases hempty : mw.required_scopes.isEmpty
  · simp [hempty, List.isEmpty_iff.mp hempty]
  · simp only [hempty, if_false]
    by_cases hstar : user.scopes.contains "*"
    · simp [hstar, List.elem_iff.mp hstar]
    · have hne : mw.required_scopes ≠ [] := by
        intro h
        exact hempty (by simp [h])
      have hnstar : "*" ∉ user.scopes := by
        intro h
        exact hstar (List.elem_iff.mpr h)
      simp [hstar, hne, hnstar, List.all_eq_true, List.elem_iff]

/-- Python `l or []` on a present list is the list itself. -/
theorem pyListOr_some (l : List String) : pyListOr (some l) = l := by
  unfold pyListOr
  by_cases h : l.isEmpty
  · simp [h, List.isEmpty_iff.mp h]
  · simp [h]

/-- C2: the claim says a stored API-token record with a past expires_at is
rejected by the API-token path; the code never reads expires_at there
(core/auth.py lines 162-210 check only presence, JSON shape and scopes),
so the expired record of expiredTokenData resolves, at time 1000 with its
expires_at at 100, to a successful principal.  This theorem evaluates the
embedded code at that failing input. -/
theorem expired_api_token_still_authenticates :
    expiredTokenData.expires_at = some 100 ∧ (100 : Int) < 1000 ∧
      (mwDefault.authenticate_api_token expiredTokenStore 1000 emptyCacheState
        "expired-tok").result =
        { success := true, user := some (userOfTokenData expiredTokenData) } := by
  refine ⟨rfl, by decide, ?_⟩
  decide

/-- C3 counterexample: at the get interface a store/transport error is not
distinguishable from an absent secret.  A 500 response for a present row
and a 200 response with no rows produce the identical caller-visible
result None, even though the request layer raised for the former; the same
200 response with the row present shows the data was recoverable. -/
theorem get_secret_error_equals_absent :
    SecretsManager.requestResult 500 demoRows =
      .error "Supabase API error: 500" ∧
    get_secret demoManager (SecretsManager.requestResult 500 demoRows) = none ∧
    get_secret demoManager (SecretsManager.requestResult 200 []) = none ∧
    get_secret demoManager (SecretsManager.requestResult 200 demoRows) = some "v" := by
  refine ⟨rfl, rfl, rfl, rfl⟩

/-- C3 amended: a store/transport error inside SecretsManager.get_secret
is caught by its except clause and surfaced as None, the same result the
caller receives for a missing name; the error is distinguishable only
below get, where the request layer raises on a non-2xx response. -/
theorem get_secret_error_surfaces_as_none (m : SecretsManager) (e : String) :
    m.get_secret (.error e) = none ∧ m.get_secret (.ok []) = none ∧
      get_secret m (.error e) = get_secret m (.ok []) := by
  exact ⟨rfl, rfl, rfl⟩

/-- C4: a JWT minted with expires_in = -1 carries exp = issue time - 1, so
at any verification time not before the issue time the Authenticator's JWT
path rejects it with the expiry-specific error and never succeeds. -/
theorem expired_jwt_rejected (user_id : String)
    (username email role : Option String) (scopes : Option (List String))
    (s : String) (mw : AuthMiddleware) (t0 t1 : Int) (tok : Jwt)
    (hsec : mw.jwt_secret = some s)
    (hcreate : create_jwt_token user_id username email role scopes (some (-1))
      (some s) mw.jwt_algorithm t0 = .ok tok)
    (ht : t0 ≤ t1) :
    (mw.authenticate_jwt_token t1 (.valid tok)).success = false ∧
      (mw.authenticate_jwt_token t1 (.valid tok)).error =
        some "JWT token has expired." := by
  unfold create_jwt_token at hcreate
  simp only [Except.ok.injEq] at hcreate
  subst hcreate
  have hexp : t0 + (-1) < t1 := by omega
  unfold AuthMiddleware.authenticate_jwt_token
  rw [hsec]
  simp [jwtDecode, pyIntTruthy, hexp]

/-- Witness for C4 at the concrete token expiredJwt. -/
theorem expired_jwt_rejected_witness :
    (mwJwt.authenticate_jwt_token 10 (.valid expiredJwt)).success = false ∧
      (mwJwt.authenticate_jwt_token 10 (.valid expiredJwt)).error =
        some "JWT token has expired." :=
  expired_jwt_rejected "u1" none none none none "jwt-signing-key" mwJwt 10 10
    expiredJwt rfl rfl (by decide)

/-- C5: resolving a valid API token from a fresh cache performs one store
lookup and succeeds; a second resolution strictly within the 300-second
TTL of the first is served from the cache with zero store lookups, while a
resolution at or after TTL expiry performs a fresh store lookup. -/
theorem api_token_cache_ttl_property
    (mw : AuthMiddleware) (store : SecretStore) (token : String) (d : TokenData)
    (st : CacheState) (t1 t2 t3 : Int)
    (hstore : store ("api_token:" ++ token) = .ok (some (.doc d)))
    (hscope : mw.has_required_scopes (userOfTokenData d) = true)
    (hfresh : st.cache token = none)
    (h2 : t2 - t1 < api_token_cache_ttl)
    (h3 : api_token_cache_ttl ≤ t3 - t1) :
    (mw.authenticate_api_token store t1 st token).lookups = 1 ∧
    (mw.authenticate_api_token store t1 st token).result.success = true ∧
    (mw.authenticate_api_token store t2
      (mw.authenticate_api_token store t1 st token).state token).lookups = 0 ∧
    (mw.authenticate_api_token store t2
      (mw.authenticate_api_token store t1 st token).state token).result.success = true ∧
    (mw.authenticate_api_token store t3
      (mw.authenticate_api_token store t1 st token).state token).lookups = 1 := by
  have ho1 : mw.authenticate_api_token store t1 st token =
      { result := { success := true, user := some (userOfTokenData d) }
        state :=
          { cache := fun t => if t = token then some (userOfTokenData d) else st.cache t
            timestamps := fun t => if t = token then some t1 else st.timestamps t }
        lookups := 1 } := by
    unfold AuthMiddleware.authenticate_api_token
    rw [hfresh]
    unfold apiTokenLookup
    rw [hstore]
    simp [hscope]
  have hnot3 : ¬ (t3 - t1 < api_token_cache_ttl) := not_lt.mpr h3
  refine ⟨by rw [ho1], by rw [ho1], ?_, ?_, ?_⟩
  · rw [ho1]
    unfold AuthMiddleware.authenticate_api_token
    simp [h2]
  · rw [ho1]
    unfold AuthMiddleware.authenticate_api_token
    simp [h2]
  · rw [ho1]
    unfold AuthMiddleware.authenticate_api_token
    simp only [if_true, Option.getD_some, hnot3, ite_false, ite_true, reduceIte]
    unfold apiTokenLookup
    rw [hstore]
    simp [hscope]

/-- Witness for C5 with the read-scope record, resolutions at times 0, 299
and 300. -/
theorem api_token_cache_ttl_property_witness :
    (mwRead.authenticate_api_token readTokenStore 0 emptyCacheState "cache-tok").lookups = 1 ∧
    (mwRead.authenticate_api_token readTokenStore 0 emptyCacheState "cache-tok").result.success = true ∧
    (mwRead.authenticate_api_token readTokenStore 299
      (mwRead.authenticate_api_token readTokenStore 0 emptyCacheState "cache-tok").state
      "cache-tok").lookups = 0 ∧
    (mwRead.authenticate_api_token readTokenStore 299
      (mwRead.authenticate_api_token readTokenStore 0 emptyCacheState "cache-tok").state
      "cache-tok").result.success = true ∧
    (mwRead.authenticate_api_token readTokenStore 300
      (mwRead.authenticate_api_token readTokenStore 0 emptyCacheState "cache-tok").state
      "cache-tok").lookups = 1 :=
  api_token_cache_ttl_property mwRead readTokenStore "cache-tok" readTokenData
    emptyCacheState 0 299 300 rfl (by decide) rfl (by decide) (by decide)

/-- C6: decrypting the encryption of any string value under the same
manager returns exactly that value (the empty string and non-ASCII strings
included, the statement being universal over String). -/
theorem encrypt_decrypt_roundtrip (m : SecretsManager) (v : String) :
    m.decrypt (m.encrypt v) = .ok v := by
  simp [SecretsManager.decrypt, SecretsManager.encrypt]

/-- C7: issuing an API token and immediately resolving it through the
API-token path (scope check passing, token not yet cached) yields a
principal whose id, role and scopes are exactly the values given to the
issuer. -/
theorem issue_then_resolve_identity
    (mw : AuthMiddleware) (base : SecretStore) (st : CacheState)
    (token user_id : String) (username email role : Option String)
    (scopes : List String) (expires_in : Option Int) (t0 t1 : Int)
    (hfresh : st.cache token = none)
    (hscope : mw.has_required_scopes (userOfTokenData
      (create_api_token_data user_id username email role (some scopes) expires_in t0)) = true) :
    (mw.authenticate_api_token
        (storeAfterCreate base token
          (create_api_token_data user_id username email role (some scopes) expires_in t0))
        t1 st token).result =
      { success := true
        user := some { id := user_id, username := username, email := email
                       role := role, scopes := scopes } } := by
  unfold AuthMiddleware.authenticate_api_token
  rw [hfresh]
  unfold apiTokenLookup
  have hs : storeAfterCreate base token
      (create_api_token_data user_id username email role (some scopes) expires_in t0)
      ("api_token:" ++ token) =
      .ok (some (.doc (create_api_token_data user_id username email role
        (some scopes) expires_in t0))) := by
    unfold storeAfterCreate
    simp
  rw [hs]
  simp only [hscope, if_pos]
  unfold userOfTokenData create_api_token_data
  simp [pyListOr_some]

/-- Witness for C7: issuing for u9 with role user and scope read, then
resolving against the read-requiring middleware. -/
theorem issue_then_resolve_identity_witness :
    (mwRead.authenticate_api_token
        (storeAfterCreate errorStore "new-tok"
          (create_api_token_data "u9" none none (some "user") (some ["read"]) none 0))
        1 emptyCacheState "new-tok").result =
      { success := true
        user := some { id := "u9", username := none, email := none
                       role := some "user", scopes := ["read"] } } :=
  issue_then_resolve_identity mwRead errorStore emptyCacheState "new-tok" "u9"
    none none (some "user") ["read"] none 0 1 rfl (by decide)

/-- C8: refreshing with a token whose stored record carries a past
expires_at fails with the expiry error and mints no new JWT. -/
theorem refresh_with_expired_record_fails
    (flow : PrivyAuthFlow) (store : SecretStore) (now : Int) (rt : String)
    (d : TokenData) (e : Int)
    (hstore : store ("api_token:" ++ rt) = .ok (some (.doc d)))
    (hexp : d.expires_at = some e) (hlt : e < now) :
    (flow.refresh_token store now rt).success = false ∧
      (flow.refresh_token store now rt).error = some "Refresh token has expired" ∧
      (flow.refresh_token store now rt).token = none := by
  unfold PrivyAuthFlow.refresh_token
  rw [hstore]
  have hx : tokenDataExpired d now = true := by
    simp [tokenDataExpired, hexp, hlt]
  simp [hx, authFlowErr]

/-- Witness for C8 with the record that expired at time 100, refreshed at
time 1000. -/
theorem refresh_with_expired_record_fails_witness :
    (demoFlow.refresh_token expiredRefreshStore 1000 "refresh-tok").success = false ∧
      (demoFlow.refresh_token expiredRefreshStore 1000 "refresh-tok").error =
        some "Refresh token has expired" ∧
      (demoFlow.refresh_token expiredRefreshStore 1000 "refresh-tok").token = none :=
  refresh_with_expired_record_fails demoFlow expiredRefreshStore 1000 "refresh-tok"
    expiredRefreshData 100 rfl rfl (by decide)

/-- C9: with an Authenticator attached and bypass disabled, an
authentication failure makes the guard return the structured error result
built from the failure's message; in particular the outcome is neither the
invoked nor the raised constructor, so the wrapped operation never runs
and no exception crosses the boundary. -/
theorem guard_rejects_on_auth_failure {α : Type} (scopes : Option (List String))
    (m : AuthMiddleware) (store : SecretStore) (now : Int) (st : CacheState)
    (h : RequestHeaders) (func : Option AuthUser → α)
    (hfail : (m.authenticate store now st h).1.success = false) :
    require_auth scopes false (some m) store now st h func =
      .errorResult (m.authenticate store now st h).1.error := by
  unfold require_auth
  simp [hfail]

/-- Witness for C9: a request with no credential headers against the
default middleware is rejected with the generic failure message and the
wrapped operation (here returning 0) is not invoked. -/
theorem guard_rejects_on_auth_failure_witness :
    require_auth none false (some mwDefault) errorStore 0 emptyCacheState {}
        (fun _ => (0 : Nat)) =
      .errorResult
        (some "Authentication failed. No valid API token or JWT token provided.") :=
  guard_rejects_on_auth_failure none mwDefault errorStore 0 emptyCacheState {}
    (fun _ => (0 : Nat)) rfl

/-- The try-block of the API-token path preserves the cache invariant and
only ever carries principals that pass the required-scope check. -/
theorem apiTokenLookup_preserves_inv (mw : AuthMiddleware) (store : SecretStore)
    (now : Int) (st : CacheState) (token : String) (hinv : CacheInv mw st) :
    CacheInv mw (apiTokenLookup mw store now st token).state ∧
      resultUserSatisfies mw (apiTokenLookup mw store now st token).result = true := by
  unfold apiTokenLookup
  cases hs : store ("api_token:" ++ token) with
  | error e => exact ⟨hinv, rfl⟩
  | ok v =>
    match v with
    | none => exact ⟨hinv, rfl⟩
    | some .emptyStr => exact ⟨hinv, rfl⟩
    | some .malformed => exact ⟨hinv, rfl⟩
    | some (.doc d) =>
      by_cases hscope : mw.has_required_scopes (userOfTokenData d) = true
      · simp only [hscope, if_pos]
        refine ⟨?_, by simp [resultUserSatisfies, hscope]⟩
        intro t u hu
        simp only at hu
        by_cases ht : t = token
        · rw [if_pos ht] at hu
          cases hu
          exact hscope
        · rw [if_neg ht] at hu
          exact hinv t u hu
      · simp only [Bool.not_eq_true] at hscope
        simp only [hscope, Bool.false_eq_true, if_neg, ite_false]
        exact ⟨hinv, rfl⟩

/-- C10: every authentication attempt through the API-token path preserves
the invariant that each cached principal passed the required-scope check
at insertion, and any principal the path returns (from the cache or fresh)
satisfies the required scopes. -/
theorem api_token_cache_scope_invariant (mw : AuthMiddleware) (store : SecretStore)
    (now : Int) (st : CacheState) (token : String) (hinv : CacheInv mw st) :
    CacheInv mw (mw.authenticate_api_token store now st token).state ∧
      resultUserSatisfies mw
        (mw.authenticate_api_token store now st token).result = true := by
  unfold AuthMiddleware.authenticate_api_token
  cases hc : st.cache token with
  | none => exact apiTokenLookup_preserves_inv mw store now st token hinv
  | some user =>
    by_cases htt : now - (st.timestamps token).getD 0 < api_token_cache_ttl
    · simp only [htt, if_pos]
      exact ⟨hinv, by simp [resultUserSatisfies, hinv token user hc]⟩
    · simp only [htt, if_neg, ite_false]
      exact apiTokenLookup_preserves_inv mw store now st token hinv

/-- Witness for C10: the empty cache satisfies the invariant, and one
resolution of the read-scope token keeps it and returns a principal
passing the scope check. -/
theorem api_token_cache_scope_invariant_witness :
    CacheInv mwRead
        (mwRead.authenticate_api_token readTokenStore 0 emptyCacheState
          "cache-tok").state ∧
      resultUserSatisfies mwRead
        (mwRead.authenticate_api_token readTokenStore 0 emptyCacheState
          "cache-tok").result = true :=
  api_token_cache_scope_invariant mwRead readTokenStore 0 emptyCacheState
    "cache-tok" (fun _ _ h => Option.noConfusion h)
